import Mathlib

/-!
Verification of the device interrupt manager (`src/interrupt/manager.rs`)
of the cloud-hypervisor `vm-device` crate.

The Rust code is shallowly embedded: the manager struct becomes a Lean
structure, `&mut self` methods become pure functions from the old state to
a result carrying the new state, machine integers become `Nat` with
explicit `% 2^w` where the source performs a narrowing cast, and fallible
operations return an explicit result type.  The external collaborators
(`InterruptSourceGroup`, `InterruptSourceConfig`) are modelled at their
interface: a group is represented by its vector count together with the
results its `enable` / `disable` / `update` operations produce, which is
everything the manager's control flow observes about it.

A Rust `panic!` (including an out-of-bounds index) aborts the program and
leaves no observable state, so the result type has a dedicated
`panicked` constructor distinct from an `Err(..)` early return.
-/

namespace VmDevice

/-- `usize::MAX`, the sentinel used in `mode2idx` for unsupported modes. -/
def USIZE_MAX : Nat := 2 ^ 64 - 1

/-- `libc::EINVAL`, the os error code used for all invalid-state failures. -/
def EINVAL : Nat := 22

/-- 2^32, the number of values of `u32`. -/
def UINT32 : Nat := 2 ^ 32

/-- Device interrupt working modes (`DeviceInterruptMode` in the source). -/
inductive DeviceInterruptMode where
  /-- The device interrupt manager has been disabled. -/
  | Disabled
  /-- The device interrupt manager works in legacy irq mode. -/
  | LegacyIrq
  /-- The device interrupt manager works in generic MSI mode. -/
  | GenericMsiIrq
  /-- The device interrupt manager works in PCI MSI mode. -/
  | PciMsiIrq
  /-- The device interrupt manager works in PCI MSI-x mode. -/
  | PciMsixIrq
deriving DecidableEq, Repr

/-- Modelled from the spec: `MsiIrqSourceConfig` lives outside `src/`;
§6 of the spec gives its shape `MsiIrq { high_addr: u32, low_addr: u32,
data: u32 }`, with default-valued (zero) entries. -/
structure MsiIrqSourceConfig where
  high_addr : Nat
  low_addr : Nat
  data : Nat
deriving DecidableEq, Repr

/-- `MsiIrqSourceConfig::default()`: all three `u32` fields zero. -/
def MsiIrqSourceConfig.zero : MsiIrqSourceConfig :=
  { high_addr := 0, low_addr := 0, data := 0 }

/-- Modelled from the spec: `InterruptSourceConfig` lives outside `src/`;
§6 describes it as a tagged union of a field-less legacy variant and the
MSI triple. -/
inductive InterruptSourceConfig where
  | LegacyIrq : InterruptSourceConfig
  | MsiIrq : MsiIrqSourceConfig → InterruptSourceConfig
deriving DecidableEq, Repr

/-- `LEGACY_CONFIGS`: the fixed one-element payload used for legacy mode. -/
def LEGACY_CONFIGS : List InterruptSourceConfig := [InterruptSourceConfig.LegacyIrq]

/-- Modelled from the spec: `InterruptSourceGroup` is an external
collaborator (§6).  The manager observes a group only through its vector
count `len` (a `u32`) and the results of its `enable` / `disable` /
`update` operations, so a group is embedded as those observations:
`none` is `Ok(())`, `some e` is `Err` with os error code `e`. -/
structure InterruptSourceGroup where
  len : Nat
  enableRes : List InterruptSourceConfig → Option Nat
  disableRes : Option Nat
  updateRes : Nat → InterruptSourceConfig → Option Nat

/-- The manager state (`DeviceInterruptManager` in the source).  The
`mode2idx : [usize; 5]` array indexed by `mode as usize` is embedded as a
function from the mode enumeration. -/
structure DeviceInterruptManager where
  mode : DeviceInterruptMode
  activated : Bool
  current_idx : Nat
  mode2idx : DeviceInterruptMode → Nat
  intr_groups : List InterruptSourceGroup
  msi_config : List InterruptSourceConfig

/-- Result of a `&mut self` method returning `Result<()>`: the new state
on `Ok`, the os error code plus the state at the early return on `Err`,
or an aborting `panic!` / out-of-bounds index. -/
inductive MgrResult where
  | ok : DeviceInterruptManager → MgrResult
  | err : Nat → DeviceInterruptManager → MgrResult
  | panicked : MgrResult

open DeviceInterruptMode

namespace DeviceInterruptManager

/-- `DeviceInterruptManager::get_working_mode`. -/
def get_working_mode (m : DeviceInterruptManager) : DeviceInterruptMode :=
  m.mode

/-- `DeviceInterruptManager::is_enabled`. -/
def is_enabled (m : DeviceInterruptManager) : Bool :=
  m.activated

/-- `DeviceInterruptManager::reset_configs`: for an MSI-family mode,
replace `msi_config` by default entries of the same length. -/
def reset_configs (m : DeviceInterruptManager) (mode : DeviceInterruptMode) :
    DeviceInterruptManager :=
  match mode with
  | GenericMsiIrq | PciMsiIrq | PciMsixIrq =>
      { m with msi_config :=
          (List.replicate m.msi_config.length
            (InterruptSourceConfig.MsiIrq MsiIrqSourceConfig.zero)) }
  | _ => m

/-- `DeviceInterruptManager::set_working_mode`. -/
def set_working_mode (m : DeviceInterruptManager) (mode : DeviceInterruptMode) :
    MgrResult :=
  if m.activated then .err EINVAL m
  else if mode ≠ m.mode then
    if m.mode ≠ Disabled ∧ m.mode ≠ LegacyIrq ∧ mode ≠ LegacyIrq ∧ mode ≠ Disabled then
      .err EINVAL m
    else
      let m1 :=
        if mode ≠ Disabled then
          let m2 := reset_configs m mode
          { m2 with current_idx := m2.mode2idx mode }
        else m
      .ok { m1 with mode := mode }
  else .ok m

/-- `DeviceInterruptManager::get_configs`: assemble the enable payload for
`mode`.  `none` models a `panic!` (the explicit one for an unhandled mode,
an out-of-bounds `intr_groups[idx]`, or a slice `&msi_config[0..group_len]`
whose end exceeds the vector's length). -/
def get_configs (m : DeviceInterruptManager) (mode : DeviceInterruptMode) :
    Option (List InterruptSourceConfig) :=
  match mode with
  | LegacyIrq => some LEGACY_CONFIGS
  | GenericMsiIrq | PciMsiIrq | PciMsixIrq =>
      match m.intr_groups[m.mode2idx mode]? with
      | none => none
      | some g =>
          if g.len ≤ m.msi_config.length then some (m.msi_config.take g.len)
          else none
  | Disabled => none

/-- `DeviceInterruptManager::enable`. -/
def enable (m : DeviceInterruptManager) : MgrResult :=
  if m.activated then .ok m
  else
    let step1 : MgrResult :=
      if m.mode = Disabled ∧ m.mode2idx LegacyIrq ≠ USIZE_MAX then
        set_working_mode m LegacyIrq
      else .ok m
    match step1 with
    | .panicked => .panicked
    | .err e m1 => .err e m1
    | .ok m1 =>
        if m1.mode = Disabled then .err EINVAL m1
        else
          match m1.intr_groups[m1.current_idx]? with
          | none => .panicked
          | some g =>
              match get_configs m1 m1.mode with
              | none => .panicked
              | some cfgs =>
                  match g.enableRes cfgs with
                  | some e => .err e m1
                  | none => .ok { m1 with activated := true }

/-- `DeviceInterruptManager::reset`.  Note the source clears `activated`
BEFORE calling the group's disable operation, so a failing disable leaves
`activated = false`. -/
def reset (m : DeviceInterruptManager) : MgrResult :=
  let step1 : MgrResult :=
    if m.activated then
      let m1 := { m with activated := false }
      match m1.intr_groups[m1.current_idx]? with
      | none => .panicked
      | some g =>
          match g.disableRes with
          | some e => .err e m1
          | none => .ok m1
    else .ok m
  match step1 with
  | .panicked => .panicked
  | .err e m1 => .err e m1
  | .ok m1 => set_working_mode m1 Disabled

/-- `DeviceInterruptManager::get_group`.  The outer `Option` models
termination: `none` is a `panic!` (out-of-bounds index), `some r` is a
normal return of the Rust `Option`. -/
def get_group (m : DeviceInterruptManager) :
    Option (Option InterruptSourceGroup) :=
  if ¬ m.activated ∨ m.mode = Disabled then some none
  else
    match m.intr_groups[m.current_idx]? with
    | none => none
    | some g => some (some g)

/-- `DeviceInterruptManager::update`.  `index` is a `u32`; the source
compares it against `group.len()` (a `u32`) and against
`msi_config.len() as u32`, a narrowing cast embedded as `% 2^32`. -/
def update (m : DeviceInterruptManager) (index : Nat) : MgrResult :=
  if ¬ m.activated then .err EINVAL m
  else
    match m.mode with
    | GenericMsiIrq | PciMsiIrq | PciMsixIrq =>
        match m.intr_groups[m.current_idx]? with
        | none => .panicked
        | some g =>
            if g.len ≤ index ∨ m.msi_config.length % UINT32 ≤ index then
              .err EINVAL m
            else
              match m.msi_config[index]? with
              | none => .panicked
              | some cfg =>
                  match g.updateRes index cfg with
                  | some e => .err e m
                  | none => .ok m
    | _ => .err EINVAL m

/-- `DeviceInterruptManager::set_msi_high_address`. -/
def set_msi_high_address (m : DeviceInterruptManager) (index data : Nat) :
    MgrResult :=
  if index < m.msi_config.length then
    match m.msi_config[index]? with
    | some (InterruptSourceConfig.MsiIrq msi) =>
        .ok { m with msi_config :=
          (m.msi_config.set index
            (InterruptSourceConfig.MsiIrq { msi with high_addr := data })) }
    | _ => .err EINVAL m
  else .err EINVAL m

/-- `DeviceInterruptManager::set_msi_low_address`. -/
def set_msi_low_address (m : DeviceInterruptManager) (index data : Nat) :
    MgrResult :=
  if index < m.msi_config.length then
    match m.msi_config[index]? with
    | some (InterruptSourceConfig.MsiIrq msi) =>
        .ok { m with msi_config :=
          (m.msi_config.set index
            (InterruptSourceConfig.MsiIrq { msi with low_addr := data })) }
    | _ => .err EINVAL m
  else .err EINVAL m

/-- `DeviceInterruptManager::set_msi_data`. -/
def set_msi_data (m : DeviceInterruptManager) (index data : Nat) :
    MgrResult :=
  if index < m.msi_config.length then
    match m.msi_config[index]? with
    | some (InterruptSourceConfig.MsiIrq msi) =>
        .ok { m with msi_config :=
          (m.msi_config.set index
            (InterruptSourceConfig.MsiIrq { msi with data := data })) }
    | _ => .err EINVAL m
  else .err EINVAL m

end DeviceInterruptManager

/-- `InterruptStatusRegister32`: a 32-bit status word.  The register's
atomic operations are embedded sequentially, each returning the new
register value (and, for `read_and_clear`, the pre-clear value).  The
word is a `Nat` kept below `2^32` by the operations themselves. -/
structure InterruptStatusRegister32 where
  status : Nat
deriving DecidableEq, Repr

namespace InterruptStatusRegister32

/-- `InterruptStatusRegister32::new`. -/
def new : InterruptStatusRegister32 := { status := 0 }

/-- `InterruptStatusRegister32::read`. -/
def read (r : InterruptStatusRegister32) : Nat := r.status

/-- `InterruptStatusRegister32::write`: store `value` (a `u32`). -/
def write (r : InterruptStatusRegister32) (value : Nat) :
    InterruptStatusRegister32 :=
  { r with status := value % UINT32 }

/-- `InterruptStatusRegister32::read_and_clear`: swap with 0, returning
the pre-clear value together with the new register. -/
def read_and_clear (r : InterruptStatusRegister32) :
    Nat × InterruptStatusRegister32 :=
  (r.status, { r with status := 0 })

/-- `InterruptStatusRegister32::set_bits`: `fetch_or`. -/
def set_bits (r : InterruptStatusRegister32) (value : Nat) :
    InterruptStatusRegister32 :=
  { r with status := r.status ||| value % UINT32 }

/-- `InterruptStatusRegister32::clear_bits`: `fetch_and` with the 32-bit
complement `!value`. -/
def clear_bits (r : InterruptStatusRegister32) (value : Nat) :
    InterruptStatusRegister32 :=
  { r with status := r.status &&& ((value % UINT32) ^^^ (UINT32 - 1)) }

end InterruptStatusRegister32

open DeviceInterruptManager InterruptStatusRegister32

/-- The five-way disjunction under which `set_working_mode` can succeed
from configuration stage. -/
def legalSwitch (cur target : DeviceInterruptMode) : Prop :=
  target = cur ∨ cur = Disabled ∨ target = Disabled ∨
    cur = LegacyIrq ∨ target = LegacyIrq

instance (cur target : DeviceInterruptMode) : Decidable (legalSwitch cur target) := by
  unfold legalSwitch; infer_instance

/-- C1: with `activated = false`, `set_working_mode target` succeeds
exactly when `target` equals the current mode, or either side of the
transition is `Disabled` or `LegacyIrq`; on success `get_working_mode`
returns `target`, and on any other pair it fails with `EINVAL` leaving
the state (in particular the mode) unchanged. -/
theorem set_working_mode_config_stage (m : DeviceInterruptManager)
    (target : DeviceInterruptMode) (h : m.activated = false) :
    (legalSwitch m.mode target →
      ∃ m2, m.set_working_mode target = .ok m2 ∧ m2.get_working_mode = target) ∧
    (¬ legalSwitch m.mode target →
      m.set_working_mode target = .err EINVAL m) := by
  constructor
  · intro hcond
    cases hm : m.mode <;> cases target <;>
      simp_all [legalSwitch, set_working_mode, get_working_mode, reset_configs]
  · intro hcond
    cases hm : m.mode <;> cases target <;>
      simp_all [legalSwitch, set_working_mode, get_working_mode, reset_configs]

/-- C4: once `activated = true`, `set_working_mode` fails with `EINVAL`
for every target, leaving the state (and so the mode) unchanged. -/
theorem set_working_mode_runtime_stage (m : DeviceInterruptManager)
    (target : DeviceInterruptMode) (h : m.activated = true) :
    m.set_working_mode target = .err EINVAL m := by
  unfold DeviceInterruptManager.set_working_mode
  rw [h]
  simp

/-- A one-vector legacy group whose operations all succeed. -/
def legacyGroup : InterruptSourceGroup :=
  { len := 1, enableRes := fun _ => none, disableRes := none,
    updateRes := fun _ _ => none }

/-- A two-vector MSI group whose operations all succeed. -/
def msiGroup : InterruptSourceGroup :=
  { len := 2, enableRes := fun _ => none, disableRes := none,
    updateRes := fun _ _ => none }

/-- A freshly constructed manager for a device assigned a legacy line
(slot 0) and a two-vector generic MSI range (slot 1), as
`DeviceInterruptManager::new` builds it. -/
def sampleMgr : DeviceInterruptManager :=
  { mode := Disabled, activated := false, current_idx := USIZE_MAX,
    mode2idx := fun mo =>
      match mo with
      | LegacyIrq => 0
      | GenericMsiIrq => 1
      | _ => USIZE_MAX,
    intr_groups := [legacyGroup, msiGroup],
    msi_config :=
      [InterruptSourceConfig.MsiIrq MsiIrqSourceConfig.zero,
        InterruptSourceConfig.MsiIrq MsiIrqSourceConfig.zero] }

/-- Closed witness for C1 at `sampleMgr` (mode `Disabled`, not activated)
switching to `GenericMsiIrq`, a legal transition. -/
theorem set_working_mode_config_stage_witness :
    legalSwitch sampleMgr.mode GenericMsiIrq ∧
      ∃ m2, sampleMgr.set_working_mode GenericMsiIrq = .ok m2 ∧
        m2.get_working_mode = GenericMsiIrq :=
  ⟨Or.inr (Or.inl rfl),
    (set_working_mode_config_stage sampleMgr GenericMsiIrq rfl).1
      (Or.inr (Or.inl rfl))⟩

/-- `sampleMgr` after selecting legacy mode and activating. -/
def sampleMgrOn : DeviceInterruptManager :=
  { sampleMgr with mode := LegacyIrq, current_idx := 0, activated := true }

/-- Closed witness for C4 at the activated `sampleMgrOn`. -/
theorem set_working_mode_runtime_stage_witness :
    sampleMgrOn.set_working_mode PciMsiIrq = .err EINVAL sampleMgrOn :=
  set_working_mode_runtime_stage sampleMgrOn PciMsiIrq rfl

/-- A one-vector group whose disable operation fails with os error 5. -/
def disableFailGroup : InterruptSourceGroup :=
  { len := 1, enableRes := fun _ => none, disableRes := some 5,
    updateRes := fun _ _ => none }

/-- An activated legacy-mode manager whose current group's disable
operation fails. -/
def mgrDisableFail : DeviceInterruptManager :=
  { mode := LegacyIrq, activated := true, current_idx := 0,
    mode2idx := fun mo => if mo = LegacyIrq then 0 else USIZE_MAX,
    intr_groups := [disableFailGroup], msi_config := [] }

/-- C2 counterexample: on a failing group disable, `reset` propagates the
error (os error 5) but the state at the early return already has
`activated = false` — the source clears the flag before calling disable —
contradicting the claim that `activated` is still true. -/
theorem reset_disable_fail_cex :
    mgrDisableFail.reset = .err 5 { mgrDisableFail with activated := false } ∧
      ({ mgrDisableFail with activated := false } :
        DeviceInterruptManager).activated = false :=
  ⟨rfl, rfl⟩

/-- C2 (amended): if the current group's disable fails, `reset`
propagates the error with the mode (and all other fields) unchanged but
`activated` already cleared to `false`; if disable succeeds, or the
manager was not activated, `reset` returns `Ok` with mode `Disabled` and
`activated = false`. -/
theorem reset_spec (m : DeviceInterruptManager) (g : InterruptSourceGroup)
    (hg : m.intr_groups[m.current_idx]? = some g) :
    (m.activated = true → ∀ e, g.disableRes = some e →
      m.reset = .err e { m with activated := false }) ∧
    (m.activated = true → g.disableRes = none →
      ∃ m2, m.reset = .ok m2 ∧ m2.mode = Disabled ∧ m2.activated = false) ∧
    (m.activated = false →
      ∃ m2, m.reset = .ok m2 ∧ m2.mode = Disabled ∧ m2.activated = false) := by
  refine ⟨?_, ?_, ?_⟩
  · intro h e hd
    simp [reset, hg, h, hd]
  · intro h hd
    cases hm : m.mode <;>
      simp_all [reset, set_working_mode, hg, h, hd]
  · intro h
    cases hm : m.mode <;>
      simp_all [reset, set_working_mode, hg, h]

/-- Closed witness for C2's amended theorem at `mgrDisableFail`. -/
theorem reset_spec_witness :
    mgrDisableFail.reset = .err 5 { mgrDisableFail with activated := false } :=
  (reset_spec mgrDisableFail disableFailGroup rfl).1 rfl 5 rfl

/-- A manager for a device assigned no interrupt resource at all, exactly
as `DeviceInterruptManager::new` leaves it: every `mode2idx` slot is the
sentinel and the group table is empty. -/
def mgrNoGroups : DeviceInterruptManager :=
  { mode := Disabled, activated := false, current_idx := USIZE_MAX,
    mode2idx := fun _ => USIZE_MAX, intr_groups := [], msi_config := [] }

/-- C3 counterexample: `set_working_mode` does NOT reject a mode whose
`mode2idx` slot is the unsupported sentinel — selecting `GenericMsiIrq`
on a manager with no groups succeeds and makes it the current mode. -/
theorem set_working_mode_unsupported_cex :
    mgrNoGroups.mode2idx GenericMsiIrq = USIZE_MAX ∧
      mgrNoGroups.set_working_mode GenericMsiIrq =
        .ok { mgrNoGroups with mode := GenericMsiIrq, current_idx := USIZE_MAX } ∧
      ({ mgrNoGroups with mode := GenericMsiIrq, current_idx := USIZE_MAX } :
        DeviceInterruptManager).mode = GenericMsiIrq :=
  ⟨rfl, rfl, rfl⟩

/-- C3 (amended): `set_working_mode` performs no check against the
`mode2idx` sentinel: from `Disabled` at configuration stage, selecting
any non-`Disabled` mode that was never assigned a group succeeds, makes
that mode current, and sets `current_idx` to the sentinel, where the
group lookup a later `enable`, `reset`, `update` or `get_group` would
perform finds no group (an out-of-bounds index, i.e. a panic). -/
theorem set_working_mode_unsupported (m : DeviceInterruptManager)
    (target : DeviceInterruptMode) (h1 : m.activated = false)
    (h2 : m.mode = Disabled) (h3 : target ≠ Disabled)
    (h4 : m.mode2idx target = USIZE_MAX)
    (h5 : m.intr_groups.length ≤ USIZE_MAX) :
    ∃ m2, m.set_working_mode target = .ok m2 ∧ m2.mode = target ∧
      m2.current_idx = USIZE_MAX ∧
      m2.intr_groups[m2.current_idx]? = none := by
  cases target <;>
    simp_all [set_working_mode, reset_configs, List.get?_eq_none]

/-- Closed witness for C3's amended theorem at `mgrNoGroups`. -/
theorem set_working_mode_unsupported_witness :
    ∃ m2, mgrNoGroups.set_working_mode GenericMsiIrq = .ok m2 ∧
      m2.mode = GenericMsiIrq ∧ m2.current_idx = USIZE_MAX ∧
      m2.intr_groups[m2.current_idx]? = none :=
  set_working_mode_unsupported mgrNoGroups GenericMsiIrq rfl rfl
    (by decide) rfl (Nat.zero_le _)

/-- Helper: from `Disabled` at configuration stage, switching to
`LegacyIrq` succeeds and only sets `current_idx` and `mode`. -/
theorem set_working_mode_disabled_to_legacy (m : DeviceInterruptManager)
    (h1 : m.activated = false) (h2 : m.mode = Disabled) :
    m.set_working_mode LegacyIrq =
      .ok { m with current_idx := m.mode2idx LegacyIrq, mode := LegacyIrq } := by
  simp [set_working_mode, h1, h2, reset_configs]

/-- C5: with `activated = false` and `mode = Disabled`, `enable` fails
with `EINVAL` when no legacy group was assigned, and on success the mode
has been auto-selected to `LegacyIrq` and `get_group` returns a handle. -/
theorem enable_from_disabled (m : DeviceInterruptManager)
    (h1 : m.activated = false) (h2 : m.mode = Disabled) :
    (m.mode2idx LegacyIrq = USIZE_MAX → m.enable = .err EINVAL m) ∧
    (∀ m2, m.enable = .ok m2 → m2.get_working_mode = LegacyIrq ∧
      ∃ g, m2.get_group = some (some g)) := by
  constructor
  · intro h3
    simp [enable, h1, h2, h3]
  · intro m2 hok
    by_cases h3 : m.mode2idx LegacyIrq = USIZE_MAX
    · simp [enable, h1, h2, h3] at hok
    · rw [enable] at hok
      simp only [h1, h2, h3, Bool.false_eq_true, if_false, ne_eq,
        not_false_eq_true, and_self, if_true] at hok
      rw [set_working_mode_disabled_to_legacy m h1 h2] at hok
      simp only [get_configs] at hok
      simp at hok
      cases hg2 : m.intr_groups[m.mode2idx LegacyIrq]? with
      | none => simp [hg2] at hok
      | some g =>
          simp only [hg2] at hok
          cases he : g.enableRes LEGACY_CONFIGS with
          | some e => simp [he] at hok
          | none =>
              simp only [he, MgrResult.ok.injEq] at hok
              subst hok
              refine ⟨rfl, g, ?_⟩
              simp [get_group, hg2]

/-- C6: with a non-`Disabled` mode selected and not yet activated,
`enable` calls the selected group's enable with the assembled payload:
a group failure is propagated unchanged leaving the state (hence
`activated = false`) untouched, success sets `activated := true`; when
already activated `enable` is a no-op success. -/
theorem enable_selected_mode (m : DeviceInterruptManager)
    (g : InterruptSourceGroup) (cfgs : List InterruptSourceConfig)
    (hm : m.mode ≠ Disabled)
    (hg : m.intr_groups[m.current_idx]? = some g)
    (hc : m.get_configs m.mode = some cfgs) :
    (m.activated = true → m.enable = .ok m) ∧
    (m.activated = false →
      (∀ e, g.enableRes cfgs = some e → m.enable = .err e m) ∧
      (g.enableRes cfgs = none → m.enable = .ok { m with activated := true })) := by
  constructor
  · intro h
    simp [enable, h]
  · intro h
    constructor
    · intro e he
      simp [enable, h, hm, hg, hc, he]
    · intro he
      simp [enable, h, hm, hg, hc, he]

/-- The three MSI-family modes. -/
def msiFamily : DeviceInterruptMode → Prop := fun mo =>
  mo = GenericMsiIrq ∨ mo = PciMsiIrq ∨ mo = PciMsixIrq

/-- C7: `update index` fails with `EINVAL` when not activated, when the
mode is `Disabled` or `LegacyIrq`, or when `index` reaches the current
group's vector count or the pending-configuration length; otherwise it
forwards `msi_config[index]` to the current group's update operation and
returns that operation's result unchanged.  `hlen` reflects that
`msi_config` is sized from a `u32` group length, so the source's
`len() as u32` cast is lossless. -/
theorem update_spec (m : DeviceInterruptManager) (index : Nat)
    (g : InterruptSourceGroup)
    (hlen : m.msi_config.length < UINT32)
    (hg : m.intr_groups[m.current_idx]? = some g) :
    (m.activated = false → m.update index = .err EINVAL m) ∧
    (m.activated = true → (m.mode = Disabled ∨ m.mode = LegacyIrq) →
      m.update index = .err EINVAL m) ∧
    (m.activated = true → msiFamily m.mode →
      (g.len ≤ index ∨ m.msi_config.length ≤ index) →
      m.update index = .err EINVAL m) ∧
    (m.activated = true → msiFamily m.mode → index < g.len →
      index < m.msi_config.length →
      ∃ cfg, m.msi_config[index]? = some cfg ∧
        (∀ e, g.updateRes index cfg = some e → m.update index = .err e m) ∧
        (g.updateRes index cfg = none → m.update index = .ok m)) := by
  have hmod : m.msi_config.length % UINT32 = m.msi_config.length :=
    Nat.mod_eq_of_lt hlen
  refine ⟨?_, ?_, ?_, ?_⟩
  · intro h
    simp [update, h]
  · intro h hmode
    rcases hmode with hm | hm <;> simp [update, h, hm]
  · intro h hfam hidx
    rcases hfam with hm | hm | hm <;>
      simp [update, h, hm, hg, hmod, hidx]
  · intro h hfam hi1 hi2
    have hcfg : m.msi_config[index]? = some m.msi_config[index] :=
      List.getElem?_eq_getElem hi2
    refine ⟨m.msi_config[index], hcfg, ?_, ?_⟩
    · intro e he
      rcases hfam with hm | hm | hm <;>
        simp [update, h, hm, hg, hmod, Nat.not_le.mpr hi1,
          Nat.not_le.mpr hi2, hcfg, he]
    · intro he
      rcases hfam with hm | hm | hm <;>
        simp [update, h, hm, hg, hmod, Nat.not_le.mpr hi1,
          Nat.not_le.mpr hi2, hcfg, he]

/-- C8: `get_group` returns the current group handle exactly when
`activated = true` and the mode is not `Disabled`, and returns `None`
otherwise; it takes the manager by shared reference and is embedded as a
pure function of the state, so it has no side effects. -/
theorem get_group_spec (m : DeviceInterruptManager) :
    ((m.activated = false ∨ m.mode = Disabled) → m.get_group = some none) ∧
    (m.activated = true → m.mode ≠ Disabled →
      ∀ g, m.intr_groups[m.current_idx]? = some g →
        m.get_group = some (some g)) := by
  constructor
  · intro h
    rcases h with h | h <;> simp [get_group, h]
  · intro h1 h2 g hg
    simp [get_group, h1, h2, hg]

/-- C9: each MSI parameter setter fails with `EINVAL` when `index` is at
or beyond the pending-configuration length; otherwise it succeeds and
replaces exactly the corresponding field of the entry at `index`,
leaving the other two fields and every other entry unchanged.  `hmsi`
records the construction invariant that every pending entry is the MSI
variant (the manager only ever fills `msi_config` with
`MsiIrq(default)` entries). -/
theorem msi_setters_spec (m : DeviceInterruptManager) (index data : Nat)
    (hmsi : ∀ c ∈ m.msi_config, ∃ k, c = InterruptSourceConfig.MsiIrq k) :
    (m.msi_config.length ≤ index →
      m.set_msi_high_address index data = .err EINVAL m ∧
      m.set_msi_low_address index data = .err EINVAL m ∧
      m.set_msi_data index data = .err EINVAL m) ∧
    (index < m.msi_config.length →
      ∃ msi, m.msi_config[index]? = some (InterruptSourceConfig.MsiIrq msi) ∧
        m.set_msi_high_address index data =
          .ok { m with msi_config := (m.msi_config.set index
            (InterruptSourceConfig.MsiIrq { msi with high_addr := data })) } ∧
        m.set_msi_low_address index data =
          .ok { m with msi_config := (m.msi_config.set index
            (InterruptSourceConfig.MsiIrq { msi with low_addr := data })) } ∧
        m.set_msi_data index data =
          .ok { m with msi_config := (m.msi_config.set index
            (InterruptSourceConfig.MsiIrq { msi with data := data })) } ∧
        (∀ (v : InterruptSourceConfig) (j : Nat), j ≠ index →
          (m.msi_config.set index v)[j]? = m.msi_config[j]?)) := by
  constructor
  · intro h
    have h2 : ¬ index < m.msi_config.length := Nat.not_lt.mpr h
    refine ⟨?_, ?_, ?_⟩ <;>
      simp [set_msi_high_address, set_msi_low_address, set_msi_data, h2]
  · intro h
    have hcfg : m.msi_config[index]? = some m.msi_config[index] :=
      List.getElem?_eq_getElem h
    obtain ⟨msi, hmsieq⟩ := hmsi _ (List.getElem_mem h)
    refine ⟨msi, ?_, ?_, ?_, ?_, ?_⟩
    · rw [hcfg, hmsieq]
    · simp [set_msi_high_address, h, hcfg, hmsieq]
    · simp [set_msi_low_address, h, hcfg, hmsieq]
    · simp [set_msi_data, h, hcfg, hmsieq]
    · intro v j hj
      exact List.getElem?_set_ne (fun he => hj he.symm)

/-- `sampleMgr` after a first `enable()`: legacy auto-selected and
activated. -/
def sampleMgrEnabled : DeviceInterruptManager :=
  { sampleMgr with current_idx := 0, mode := LegacyIrq, activated := true }

/-- Closed witness for C5: `enable` on the fresh `sampleMgr` succeeds
into `sampleMgrEnabled`, whose mode is `LegacyIrq` and which yields a
group handle. -/
theorem enable_from_disabled_witness :
    sampleMgrEnabled.get_working_mode = LegacyIrq ∧
      ∃ g, sampleMgrEnabled.get_group = some (some g) :=
  (enable_from_disabled sampleMgr rfl rfl).2 sampleMgrEnabled rfl

/-- `sampleMgr` with `GenericMsiIrq` selected (still configuration
stage), as `set_working_mode GenericMsiIrq` leaves it. -/
def sampleMgrMsiSel : DeviceInterruptManager :=
  { sampleMgr with mode := GenericMsiIrq, current_idx := 1 }

/-- Closed witness for C6 at `sampleMgrMsiSel`: its group enable
succeeds, so `enable` activates it. -/
theorem enable_selected_mode_witness :
    sampleMgrMsiSel.enable = .ok { sampleMgrMsiSel with activated := true } :=
  ((enable_selected_mode sampleMgrMsiSel msiGroup
      sampleMgrMsiSel.msi_config (by decide) rfl rfl).2 rfl).2 rfl

/-- `sampleMgrMsiSel` after a successful `enable()`. -/
def sampleMgrMsiOn : DeviceInterruptManager :=
  { sampleMgrMsiSel with activated := true }

/-- Closed witness for C7 at `sampleMgrMsiOn` and `index = 0`: the
pending entry is forwarded and the group's success is returned. -/
theorem update_spec_witness :
    ∃ cfg, sampleMgrMsiOn.msi_config[0]? = some cfg ∧
      (∀ e, msiGroup.updateRes 0 cfg = some e →
        sampleMgrMsiOn.update 0 = .err e sampleMgrMsiOn) ∧
      (msiGroup.updateRes 0 cfg = none →
        sampleMgrMsiOn.update 0 = .ok sampleMgrMsiOn) :=
  (update_spec sampleMgrMsiOn 0 msiGroup (by decide) rfl).2.2.2 rfl
    (Or.inl rfl) (by decide) (by decide)

/-- Closed witness for C8 at the activated `sampleMgrMsiOn`. -/
theorem get_group_spec_witness :
    sampleMgrMsiOn.get_group = some (some msiGroup) :=
  (get_group_spec sampleMgrMsiOn).2 rfl (by decide) msiGroup rfl

/-- Closed witness for C9 at `sampleMgr` and `index = 0`. -/
theorem msi_setters_spec_witness :
    ∃ msi, sampleMgr.msi_config[0]? =
        some (InterruptSourceConfig.MsiIrq msi) ∧
      sampleMgr.set_msi_high_address 0 7 =
        .ok { sampleMgr with msi_config := (sampleMgr.msi_config.set 0
          (InterruptSourceConfig.MsiIrq { msi with high_addr := 7 })) } ∧
      sampleMgr.set_msi_low_address 0 7 =
        .ok { sampleMgr with msi_config := (sampleMgr.msi_config.set 0
          (InterruptSourceConfig.MsiIrq { msi with low_addr := 7 })) } ∧
      sampleMgr.set_msi_data 0 7 =
        .ok { sampleMgr with msi_config := (sampleMgr.msi_config.set 0
          (InterruptSourceConfig.MsiIrq { msi with data := 7 })) } ∧
      (∀ (v : InterruptSourceConfig) (j : Nat), j ≠ 0 →
        (sampleMgr.msi_config.set 0 v)[j]? = sampleMgr.msi_config[j]?) :=
  (msi_setters_spec sampleMgr 0 7
    (by
      intro c hc
      simp [sampleMgr] at hc
      exact ⟨MsiIrqSourceConfig.zero, hc⟩)).2 (by decide)

/-- C10: the concrete scenario `write 0x13; clear_bits 0x11; read = 0x2;
set_bits 0x100; read_and_clear = 0x102; read = 0`, together with the
general laws: `write` replaces the word, `set_bits` ORs into it,
`clear_bits` ANDs with the 32-bit complement, and `read_and_clear`
returns the pre-clear value leaving the register at 0. -/
theorem interrupt_status_register_spec :
    ((((InterruptStatusRegister32.new.write 0x13).clear_bits 0x11).read = 0x2) ∧
      ((((InterruptStatusRegister32.new.write 0x13).clear_bits 0x11).set_bits
          0x100).read_and_clear).1 = 0x102 ∧
      (((((InterruptStatusRegister32.new.write 0x13).clear_bits 0x11).set_bits
          0x100).read_and_clear).2.read = 0)) ∧
    (∀ (r : InterruptStatusRegister32) (v : Nat), v < UINT32 →
      (r.write v).read = v ∧
      (r.set_bits v).status = (r.status ||| v) ∧
      (r.clear_bits v).status = (r.status &&& (v ^^^ (UINT32 - 1))) ∧
      r.read_and_clear = (r.status, { r with status := 0 })) := by
  constructor
  · refine ⟨by decide, by decide, by decide⟩
  · intro r v hv
    refine ⟨?_, ?_, ?_, rfl⟩ <;>
      simp [write, InterruptStatusRegister32.read, set_bits, clear_bits,
        Nat.mod_eq_of_lt hv]

/-- Closed witness for C10's quantified laws, at `r.status = 0x5` and
`v = 0x3`. -/
theorem interrupt_status_register_spec_witness :
    ((InterruptStatusRegister32.mk 0x5).write 0x3).read = 0x3 ∧
      ((InterruptStatusRegister32.mk 0x5).set_bits 0x3).status = (0x5 ||| 0x3) ∧
      ((InterruptStatusRegister32.mk 0x5).clear_bits 0x3).status =
        (0x5 &&& (0x3 ^^^ (UINT32 - 1))) ∧
      (InterruptStatusRegister32.mk 0x5).read_and_clear =
        (0x5, InterruptStatusRegister32.mk 0) :=
  interrupt_status_register_spec.2 (InterruptStatusRegister32.mk 0x5) 0x3 (by decide)

end VmDevice
